import Mathlib

/-!
Verification of the real-time task-progress synchronization client of the
story-flow dashboard.

The development shallowly embeds two parts of the frontend:

* the Pinia project store's WebSocket-facing mutators `updateTask` and
  `updateScene` (src/frontend/src/stores/project.ts, lines 259-276), and
* the `useWebSocket` composable (the WebSocket connection-lifecycle module):
  its backoff policy `getReconnectDelay`, its message handler
  `handleMessage` / `ws.onmessage`, and its connection state machine
  (`connect`, `ws.onopen`, `ws.onclose`, `ws.onerror`, `scheduleReconnect`,
  `disconnect`, the visibilitychange listener).

JavaScript runtime conventions used throughout the embedding:

* a value of TypeScript type `T | null | undefined` is modelled as
  `Option T` (`none` = null/undefined/absent);
* a `Partial<T>` record distinguishes "key absent" from "key present with
  value undefined", so a patch field is `Option (Option T)`: the outer
  layer is key presence, the inner layer the runtime value;
* object spread `\x7b ...t, ...patch \x7d` keeps a field of `t` exactly when the
  patch lacks the key, which is `Option.getD`;
* JavaScript truthiness of a string-or-nullish value is false exactly for
  null/undefined and the empty string;
* numeric fields (`progress`, durations, delays) are integers in all code
  paths considered here and are modelled as `Nat`.
-/

namespace StoryFlow

/-- JavaScript truthiness of a `string | null | undefined` value: null,
undefined and the empty string are falsy, every other string is truthy. -/
def jsTruthy : Option String → Bool
  | none => false
  | some s => s != ""

/-! ## Data model: store records (src/frontend/src/types/index.ts) -/

/-- A task record as stored in `tasks.value` of the project store.  The
TypeScript interface `Task` declares `id`, `project_id`, `type`, `status`,
`progress`, `created_at` as required, but the WebSocket path
(`tasks.value.push(updates as Task)` in `updateTask`) can insert records in
which any of these are undefined at runtime, so every field is an
`Option`. -/
structure Task where
  id : Option String
  project_id : Option String
  scene_id : Option String
  type : Option String
  status : Option String
  progress : Option Nat
  progress_message : Option String
  error_message : Option String
  created_at : Option String
deriving DecidableEq, Repr

/-- A scene record as stored in `scenes.value` of the project store
(TypeScript interface `Scene`). -/
structure Scene where
  id : Option String
  project_id : Option String
  scene_index : Option Nat
  text : Option String
  scene_description : Option String
  characters : Option (List String)
  props : Option (List String)
  camera_type : Option String
  mood : Option String
  image_prompt : Option String
  negative_prompt : Option String
  image_url : Option String
  video_url : Option String
  duration : Option Nat
  status : Option String
deriving DecidableEq, Repr

/-- A `Partial<Task>`: each field is `none` when the key is absent and
`some v` when the key is present with runtime value `v` (which may itself
be undefined, i.e. `none`). -/
structure TaskPatch where
  id : Option (Option String) := none
  project_id : Option (Option String) := none
  scene_id : Option (Option String) := none
  type : Option (Option String) := none
  status : Option (Option String) := none
  progress : Option (Option Nat) := none
  progress_message : Option (Option String) := none
  error_message : Option (Option String) := none
  created_at : Option (Option String) := none
deriving DecidableEq, Repr

/-- A `Partial<Scene>`, with the same key-presence convention as
`TaskPatch`. -/
structure ScenePatch where
  id : Option (Option String) := none
  project_id : Option (Option String) := none
  scene_index : Option (Option Nat) := none
  text : Option (Option String) := none
  scene_description : Option (Option String) := none
  characters : Option (Option (List String)) := none
  props : Option (Option (List String)) := none
  camera_type : Option (Option String) := none
  mood : Option (Option String) := none
  image_prompt : Option (Option String) := none
  negative_prompt : Option (Option String) := none
  image_url : Option (Option String) := none
  video_url : Option (Option String) := none
  duration : Option (Option Nat) := none
  status : Option (Option String) := none
deriving DecidableEq, Repr

/-- Object spread `\x7b ...t, ...updates \x7d` for tasks: a field of the patch
overrides the record's field exactly when its key is present. -/
def mergeTask (t : Task) (p : TaskPatch) : Task where
  id := p.id.getD t.id
  project_id := p.project_id.getD t.project_id
  scene_id := p.scene_id.getD t.scene_id
  type := p.type.getD t.type
  status := p.status.getD t.status
  progress := p.progress.getD t.progress
  progress_message := p.progress_message.getD t.progress_message
  error_message := p.error_message.getD t.error_message
  created_at := p.created_at.getD t.created_at

/-- The record produced by `tasks.value.push(updates as Task)`: reading a
key the patch lacks yields undefined. -/
def taskOfPatch (p : TaskPatch) : Task where
  id := p.id.getD none
  project_id := p.project_id.getD none
  scene_id := p.scene_id.getD none
  type := p.type.getD none
  status := p.status.getD none
  progress := p.progress.getD none
  progress_message := p.progress_message.getD none
  error_message := p.error_message.getD none
  created_at := p.created_at.getD none

/-- Object spread `\x7b ...sc, ...updates \x7d` for scenes. -/
def mergeScene (sc : Scene) (p : ScenePatch) : Scene where
  id := p.id.getD sc.id
  project_id := p.project_id.getD sc.project_id
  scene_index := p.scene_index.getD sc.scene_index
  text := p.text.getD sc.text
  scene_description := p.scene_description.getD sc.scene_description
  characters := p.characters.getD sc.characters
  props := p.props.getD sc.props
  camera_type := p.camera_type.getD sc.camera_type
  mood := p.mood.getD sc.mood
  image_prompt := p.image_prompt.getD sc.image_prompt
  negative_prompt := p.negative_prompt.getD sc.negative_prompt
  image_url := p.image_url.getD sc.image_url
  video_url := p.video_url.getD sc.video_url
  duration := p.duration.getD sc.duration
  status := p.status.getD sc.status

/-- `updateTask(taskId, updates)` from src/frontend/src/stores/project.ts
lines 269-276: `findIndex(t => t.id === taskId)`; on a hit the element is
replaced by the spread merge, otherwise `tasks.value.push(updates as
Task)` appends the patch itself as a record.  (JavaScript `===` on
`string | undefined` values equates two undefineds, which is `Option`
equality.) -/
def updateTask (taskId : Option String) (updates : TaskPatch) : List Task → List Task
  | [] => [taskOfPatch updates]
  | t :: ts =>
    if t.id = taskId then mergeTask t updates :: ts
    else t :: updateTask taskId updates ts

/-- `updateScene(sceneId, updates)` from src/frontend/src/stores/project.ts
lines 259-264: `findIndex(s => s.id === sceneId)`; on a hit the element is
replaced by the spread merge, and on a miss nothing happens (there is no
push branch). -/
def updateScene (sceneId : Option String) (updates : ScenePatch) : List Scene → List Scene
  | [] => []
  | sc :: scs =>
    if sc.id = sceneId then mergeScene sc updates :: scs
    else sc :: updateScene sceneId updates scs

/-! ## Wire messages and the dispatcher (useWebSocket, `handleMessage` and
`ws.onmessage`) -/

/-- The keys of `message.result` that `handleMessage` reads
(`result: Record<string, unknown>` on the wire). -/
structure MessageResult where
  scene_id : Option String := none
  image_url : Option String := none
  video_url : Option String := none
deriving DecidableEq, Repr

/-- `TaskProgressMessage` as it exists at runtime after `JSON.parse`: the
interface declares `task_id`, `type`, `status`, `progress`, `message` as
required, but nothing validates the parsed object, so every field may be
absent. -/
structure TaskProgressMessage where
  task_id : Option String := none
  type : Option String := none
  status : Option String := none
  progress : Option Nat := none
  message : Option String := none
  result : Option MessageResult := none
  error : Option String := none
deriving DecidableEq, Repr

/-- The external state written by the dispatcher: the project store's
`tasks` and `scenes` arrays. -/
structure ProjectStoreState where
  tasks : List Task
  scenes : List Scene
deriving DecidableEq, Repr

/-- The task patch `handleMessage` passes to `updateTask`: the object
literal has all six keys present, with values taken from the message (so
an absent message field writes undefined into the record). -/
def msgTaskPatch (m : TaskProgressMessage) : TaskPatch where
  id := some m.task_id
  type := some m.type
  status := some m.status
  progress := some m.progress
  progress_message := some m.message
  error_message := some m.error

/-- The scene-routing part of `handleMessage` (part_017 lines 205-229):
on `status === 'completed'` with a truthy `result`, an `image` task with a
truthy `result.scene_id` routes `image_url` into the scene, a `video` task
routes `video_url`; on `status === 'failed'` with a truthy
`result?.scene_id` the scene is marked failed. -/
def applySceneUpdates (m : TaskProgressMessage) (scenes : List Scene) : List Scene :=
  let scenes1 :=
    match m.result with
    | some result =>
      if m.status = some "completed" then
        let sA :=
          if m.type = some "image" ∧ jsTruthy result.scene_id then
            updateScene result.scene_id
              { image_url := some result.image_url, status := some (some "completed") } scenes
          else scenes
        if m.type = some "video" ∧ jsTruthy result.scene_id then
          updateScene result.scene_id
            { video_url := some result.video_url, status := some (some "completed") } sA
        else sA
      else scenes
    | none => scenes
  if m.status = some "failed" ∧ jsTruthy (m.result.bind MessageResult.scene_id) then
    updateScene (m.result.bind MessageResult.scene_id)
      { status := some (some "failed") } scenes1
  else scenes1

/-- `handleMessage` (part_017 lines 189-230) restricted to the external
store state: the unconditional `updateTask` plus the scene routing.
(Setting `lastMessage` and invoking the `onMessage` callback touch only
composable-local state, not the store.) -/
def handleMessage (m : TaskProgressMessage) (s : ProjectStoreState) : ProjectStoreState where
  tasks := updateTask m.task_id (msgTaskPatch m) s.tasks
  scenes := applySceneUpdates m s.scenes

/-- The outcome of `JSON.parse(event.data)` inside the `try` of
`ws.onmessage`: either the parse (or a subsequent field access on a
non-object value) throws — `malformed`, caught by the surrounding
`catch` — or it yields a message object. -/
inductive RawMessage where
  | malformed
  | wellFormed (m : TaskProgressMessage)
deriving DecidableEq, Repr

/-- `ws.onmessage` (part_017 lines 268-281) as a store transformer: a
malformed payload is logged and dropped by the `catch`, a `pong` envelope
is ignored, anything else goes to `handleMessage`.  Totality of this
function is the embedding of "never throws": every branch of the handler,
including the failure branch, yields a state. -/
def dispatch (raw : RawMessage) (s : ProjectStoreState) : ProjectStoreState :=
  match raw with
  | RawMessage.malformed => s
  | RawMessage.wellFormed m =>
    if m.type = some "pong" then s else handleMessage m s

/-! ## Backoff policy and connection state machine (useWebSocket) -/

def MAX_RECONNECT_ATTEMPTS : Nat := 5

def BASE_RECONNECT_DELAY : Nat := 1000

def MAX_RECONNECT_DELAY : Nat := 30000

def HEARTBEAT_INTERVAL : Nat := 30000

/-- `getReconnectDelay` (part_017 lines 149-152):
`Math.min(BASE_RECONNECT_DELAY * Math.pow(2, attempts), MAX_RECONNECT_DELAY)`.
IEEE doubles make `1000 * 2^n` exact until it saturates at Infinity, and
`Math.min(Infinity, 30000) = 30000`, so over every attempt count the
JavaScript value equals this `Nat` value. -/
def getReconnectDelay (reconnectAttempts : Nat) : Nat :=
  min (BASE_RECONNECT_DELAY * 2 ^ reconnectAttempts) MAX_RECONNECT_DELAY

/-- `WebSocket.readyState` values. -/
inductive SocketReadyState where
  | CONNECTING
  | OPEN
  | CLOSING
  | CLOSED
deriving DecidableEq, Repr

/-- The mutable state of one `useWebSocket` instance: the refs `socket`
(modelled by its readyState, `none` = null), `connected`, `connecting`,
`reconnectAttempts`, `error`, and whether the heartbeat interval and the
reconnect timeout are currently pending. -/
structure WsClientState where
  socket : Option SocketReadyState
  connected : Bool
  connecting : Bool
  reconnectAttempts : Nat
  error : Option String
  heartbeatTimer : Bool
  reconnectTimer : Bool
deriving DecidableEq, Repr

/-- The state at composable creation: all refs at their initial values,
no timers. -/
def initialState : WsClientState where
  socket := none
  connected := false
  connecting := false
  reconnectAttempts := 0
  error := none
  heartbeatTimer := false
  reconnectTimer := false

/-- The events that drive the composable, each carrying the data the
handler reads from the environment.  `connectCall`, `reconnectTimerFire`
and `visibilityVisible` carry the value `storage.getToken()` returns at
that moment. -/
inductive WsEvent where
  | connectCall (token : Option String)
  | socketOpened
  | socketClosed (wasClean : Bool)
  | socketError
  | reconnectTimerFire (token : Option String)
  | disconnectCall
  | visibilityVisible (token : Option String)
deriving DecidableEq, Repr

/-- `connect()` (part_017 lines 235-313).  The guards in source order: a
falsy token sets `error` and returns; an already-OPEN socket returns; an
in-flight `connecting` returns; otherwise `connecting` is set, `error` is
cleared and a new socket is constructed (the `catch` for a synchronously
failing constructor is not exercised by any claim; construction is
modelled as succeeding).  The second component records whether a socket
open was attempted in this call. -/
def connectStep (token : Option String) (s : WsClientState) : WsClientState × Bool :=
  if !(jsTruthy token) then
    ({ s with error := some "未登录" }, false)
  else if s.socket = some SocketReadyState.OPEN then
    (s, false)
  else if s.connecting then
    (s, false)
  else
    ({ s with connecting := true, error := none,
              socket := some SocketReadyState.CONNECTING }, true)

/-- `ws.onopen` (part_017 lines 257-266): set `connected`, clear
`connecting`, reset `reconnectAttempts` to 0, clear `error`, start the
heartbeat (stop-then-start, so exactly one interval is pending). -/
def openedStep (s : WsClientState) : WsClientState :=
  { s with connected := true, connecting := false, reconnectAttempts := 0,
           error := none, heartbeatTimer := true,
           socket := s.socket.map (fun _ => SocketReadyState.OPEN) }

/-- `ws.onclose` (part_017 lines 283-298): clear `connected` and
`connecting`, stop the heartbeat; then, if the close was not clean and
`reconnectAttempts < MAX_RECONNECT_ATTEMPTS`, run `scheduleReconnect`
(cancel any pending reconnect timer, then increment the counter and set a
fresh timer); otherwise, if the counter has reached the maximum, set the
fatal error message. -/
def closedStep (wasClean : Bool) (s : WsClientState) : WsClientState :=
  let s1 := { s with connected := false, connecting := false, heartbeatTimer := false,
                     socket := s.socket.map (fun _ => SocketReadyState.CLOSED) }
  if wasClean = false ∧ s1.reconnectAttempts < MAX_RECONNECT_ATTEMPTS then
    { s1 with reconnectTimer := true, reconnectAttempts := s1.reconnectAttempts + 1 }
  else if MAX_RECONNECT_ATTEMPTS ≤ s1.reconnectAttempts then
    { s1 with error := some "连接失败，请刷新页面重试" }
  else s1

/-- `ws.onerror` (part_017 lines 300-305): record the error and call
`ws.close()` (readyState moves toward CLOSING unless already CLOSED). -/
def errorStep (s : WsClientState) : WsClientState :=
  { s with error := some "连接错误",
           socket := s.socket.map (fun rs =>
             match rs with
             | SocketReadyState.CLOSED => SocketReadyState.CLOSED
             | _ => SocketReadyState.CLOSING) }

/-- The `setTimeout` callback registered by `scheduleReconnect` (part_017
lines 326-328) firing: meaningful only while the timer is pending; it
consumes the pending timer and calls `connect()`. -/
def reconnectFireStep (token : Option String) (s : WsClientState) : WsClientState × Bool :=
  if s.reconnectTimer then
    connectStep token { s with reconnectTimer := false }
  else (s, false)

/-- `disconnect()` (part_017 lines 334-346): `cancelReconnect()`, then
`stopHeartbeat()`, then `socket.close(1000, 'Client disconnect')` and
`socket.value = null`, then clear `connected`/`connecting` and reset the
attempt counter. -/
def disconnectStep (s : WsClientState) : WsClientState :=
  { s with reconnectTimer := false, heartbeatTimer := false, socket := none,
           connected := false, connecting := false, reconnectAttempts := 0 }

/-- The `visibilitychange` listener (part_017 lines 369-377) on a
hidden-to-visible transition: if neither connected nor connecting, run
`resetReconnect()` (counter to 0, error cleared) and call `connect()`
immediately. -/
def visibilityStep (token : Option String) (s : WsClientState) : WsClientState × Bool :=
  if !s.connected && !s.connecting then
    connectStep token { s with reconnectAttempts := 0, error := none }
  else (s, false)

/-- One event of the composable's single-threaded event loop.  The second
component reports whether a socket open was attempted during the step. -/
def step : WsEvent → WsClientState → WsClientState × Bool
  | WsEvent.connectCall token, s => connectStep token s
  | WsEvent.socketOpened, s => (openedStep s, false)
  | WsEvent.socketClosed wasClean, s => (closedStep wasClean s, false)
  | WsEvent.socketError, s => (errorStep s, false)
  | WsEvent.reconnectTimerFire token, s => reconnectFireStep token s
  | WsEvent.disconnectCall, s => (disconnectStep s, false)
  | WsEvent.visibilityVisible token, s => visibilityStep token s

/-- Run a sequence of events; the second component reports whether any
step attempted a socket open. -/
def runEvents : List WsEvent → WsClientState → WsClientState × Bool
  | [], s => (s, false)
  | e :: es, s =>
    let r1 := step e s
    let r2 := runEvents es r1.1
    (r2.1, r1.2 || r2.2)

/-- Events generated by the socket or by pending timers, as opposed to
the external entry points `connect()`, `disconnect()` and the visibility
listener. -/
def isInternalEvent : WsEvent → Bool
  | WsEvent.socketClosed _ => true
  | WsEvent.socketError => true
  | WsEvent.reconnectTimerFire _ => true
  | _ => false

/-- Internal events that can follow a facade-initiated teardown: the
transport reporting the clean closure, stale timer callbacks, and
transport errors.  An abnormal closure report is excluded: it belongs to
the server-initiated-drop path, not the facade-close path. -/
def isPostDisconnectEvent : WsEvent → Bool
  | WsEvent.socketClosed wasClean => wasClean
  | WsEvent.socketError => true
  | WsEvent.reconnectTimerFire _ => true
  | _ => false

/-! ## Concrete sample values used by counterexamples and witnesses -/

/-- A task record whose recorded status is the terminal `completed`. -/
def taskT1 : Task where
  id := some "t1"
  project_id := some "p1"
  scene_id := none
  type := some "image"
  status := some "completed"
  progress := some 100
  progress_message := none
  error_message := none
  created_at := some "2024-01-01T00:00:00Z"

/-- A later non-terminal progress event for the same `task_id`. -/
def runningMsgT1 : TaskProgressMessage where
  task_id := some "t1"
  type := some "image"
  status := some "running"
  progress := some 50
  message := some "rendering"

/-- A task record with id `a`, used by store-contract witnesses. -/
def sampleTaskA : Task where
  id := some "a"
  project_id := none
  scene_id := none
  type := some "video"
  status := some "running"
  progress := some 40
  progress_message := none
  error_message := none
  created_at := none

/-- A scene record with id `z`, used by store-contract witnesses. -/
def sampleSceneZ : Scene where
  id := some "z"
  project_id := some "p1"
  scene_index := some 1
  text := some "a scene"
  scene_description := none
  characters := none
  props := none
  camera_type := none
  mood := none
  image_prompt := none
  negative_prompt := none
  image_url := none
  video_url := none
  duration := none
  status := some "pending"

/-- A sample `Partial<Task>`. -/
def sampleTaskPatch : TaskPatch where
  id := some (some "a")
  status := some (some "completed")
  progress := some (some 100)

/-- A sample `Partial<Scene>`. -/
def sampleScenePatch : ScenePatch where
  status := some (some "completed")
  image_url := some (some "https://cdn/img.png")

/-- A parsed JSON object with none of the expected keys present. -/
def emptyWireMessage : TaskProgressMessage := {}

/-- A client state mid-backoff: three attempts consumed, a reconnect
timer pending, socket closed. -/
def stateAttempts3 : WsClientState where
  socket := some SocketReadyState.CLOSED
  connected := false
  connecting := false
  reconnectAttempts := 3
  error := none
  heartbeatTimer := false
  reconnectTimer := true

/-- One initial `connect()` followed by five consecutive abnormal closes,
each retry timer firing between closes (the token stays available). -/
def abnormalTrace5 : List WsEvent :=
  [WsEvent.connectCall (some "tok"), WsEvent.socketClosed false,
   WsEvent.reconnectTimerFire (some "tok"), WsEvent.socketClosed false,
   WsEvent.reconnectTimerFire (some "tok"), WsEvent.socketClosed false,
   WsEvent.reconnectTimerFire (some "tok"), WsEvent.socketClosed false,
   WsEvent.reconnectTimerFire (some "tok"), WsEvent.socketClosed false]

/-- `abnormalTrace5` continued by the fifth retry firing and the socket
closing abnormally a sixth time. -/
def abnormalTrace6 : List WsEvent :=
  abnormalTrace5 ++ [WsEvent.reconnectTimerFire (some "tok"), WsEvent.socketClosed false]

/-! ## Helper lemmas -/

theorem getD_idem {α : Type _} (o : Option α) (x : α) :
    o.getD (o.getD x) = o.getD x := by
  cases o <;> rfl

/-! ## C3: backoff policy -/

/-- Claim C3: for every attempt count `n`, the reconnect delay equals
`min(1000 * 2^n, 30000)` milliseconds, the delay is non-decreasing in `n`,
and from the point the cap is reached (`n ≥ 5`, and in particular for all
counts large enough that a fixed-width power would overflow) the delay is
the constant 30000 rather than an overflowed value. -/
theorem C3_backoff_policy :
    (∀ n : Nat, getReconnectDelay n = min (1000 * 2 ^ n) 30000) ∧
    (∀ m n : Nat, m ≤ n → getReconnectDelay m ≤ getReconnectDelay n) ∧
    (∀ n : Nat, 5 ≤ n → getReconnectDelay n = 30000) := by
  refine ⟨fun n => rfl, ?_, ?_⟩
  · intro m n h
    exact min_le_min
      (Nat.mul_le_mul_left _ (Nat.pow_le_pow_right (by decide) h)) le_rfl
  · intro n h
    have h2 : (30000 : Nat) ≤ 1000 * 2 ^ n := by
      calc (30000 : Nat) ≤ 1000 * 2 ^ 5 := by decide
        _ ≤ 1000 * 2 ^ n :=
          Nat.mul_le_mul_left _ (Nat.pow_le_pow_right (by decide) h)
    exact Nat.min_eq_right h2

/-- Witness for C3 at concrete attempt counts 3, 2 ≤ 4, and 7. -/
theorem C3_backoff_policy_witness :
    getReconnectDelay 3 = min (1000 * 2 ^ 3) 30000 ∧
    getReconnectDelay 2 ≤ getReconnectDelay 4 ∧
    getReconnectDelay 7 = 30000 :=
  ⟨C3_backoff_policy.1 3, C3_backoff_policy.2.1 2 4 (by decide),
    C3_backoff_policy.2.2 7 (by decide)⟩

/-! ## C6: dispatcher error containment -/

/-- Claim C6: the inbound-message handler is total (the embedding of
"never throws out of the handler": the `catch` turns every parse or field
access failure into the `malformed` branch), and a malformed payload is
dropped with the external task/scene state left unchanged. -/
theorem C6_dispatch_malformed_dropped :
    ∀ s : ProjectStoreState, dispatch RawMessage.malformed s = s :=
  fun _ => rfl

/-! ## C9: missing credential -/

/-- Claim C9: when the credential accessor returns null at `connect()`
time, the call performs no socket open (second component `false`, socket
field untouched), returns (totality), and sets the error state
immediately; nothing else changes. -/
theorem C9_missing_credential :
    ∀ s : WsClientState,
      step (WsEvent.connectCall none) s = ({ s with error := some "未登录" }, false) :=
  fun _ => rfl

/-! ## Store merge lemmas (shared by several claims) -/

theorem mergeTask_idem (t : Task) (p : TaskPatch) :
    mergeTask (mergeTask t p) p = mergeTask t p := by
  simp [mergeTask, getD_idem]

theorem mergeTask_taskOfPatch (p : TaskPatch) :
    mergeTask (taskOfPatch p) p = taskOfPatch p := by
  simp [mergeTask, taskOfPatch, getD_idem]

theorem mergeScene_idem (sc : Scene) (p : ScenePatch) :
    mergeScene (mergeScene sc p) p = mergeScene sc p := by
  simp [mergeScene, getD_idem]

theorem updateTask_idem (taskId : Option String) (p : TaskPatch) (h : p.id = some taskId)
    (ts : List Task) :
    updateTask taskId p (updateTask taskId p ts) = updateTask taskId p ts := by
  induction ts with
  | nil =>
    have hid : (taskOfPatch p).id = taskId := by simp [taskOfPatch, h]
    simp [updateTask, hid, mergeTask_taskOfPatch]
  | cons t ts ih =>
    by_cases ht : t.id = taskId
    · have hm : (mergeTask t p).id = taskId := by simp [mergeTask, h]
      simp [updateTask, ht, hm, mergeTask_idem]
    · simp [updateTask, ht, ih]

theorem updateScene_idem (sceneId : Option String) (p : ScenePatch) (h : p.id = none)
    (scs : List Scene) :
    updateScene sceneId p (updateScene sceneId p scs) = updateScene sceneId p scs := by
  induction scs with
  | nil => rfl
  | cons sc scs ih =>
    by_cases hsc : sc.id = sceneId
    · have hm : (mergeScene sc p).id = sceneId := by simp [mergeScene, h, hsc]
      simp [updateScene, hsc, hm, mergeScene_idem]
    · simp [updateScene, hsc, ih]

theorem applySceneUpdates_idem (m : TaskProgressMessage) (scenes : List Scene) :
    applySceneUpdates m (applySceneUpdates m scenes) = applySceneUpdates m scenes := by
  cases hr : m.result with
  | none => simp [applySceneUpdates, hr, jsTruthy]
  | some result =>
    by_cases hq : jsTruthy result.scene_id = true
    · by_cases hc : m.status = some "completed"
      · by_cases himg : m.type = some "image"
        · simp [applySceneUpdates, hr, hc, himg, hq]
          exact updateScene_idem _ _ rfl _
        · by_cases hvid : m.type = some "video"
          · simp [applySceneUpdates, hr, hc, himg, hvid, hq]
            exact updateScene_idem _ _ rfl _
          · simp [applySceneUpdates, hr, hc, himg, hvid]
      · by_cases hfl : m.status = some "failed"
        · simp [applySceneUpdates, hr, hc, hfl, hq]
          exact updateScene_idem _ _ rfl _
        · simp [applySceneUpdates, hr, hc, hfl]
    · simp [applySceneUpdates, hr, hq]

/-! ## C1: terminal-status protection -/

/-- Counterexample to claim C1: with a `completed` task `t1` recorded,
dispatching a `running` event for `t1` overwrites the terminal status —
the recorded status becomes `running`, not the claimed unchanged
`completed`. -/
theorem C1_counterexample :
    ((handleMessage runningMsgT1 { tasks := [taskT1], scenes := [] }).tasks.map Task.status)
        = [some "running"] ∧
      taskT1.status = some "completed" := by
  exact ⟨by decide, rfl⟩

/-- Amended C1: the handler applies the incoming event's status
unconditionally — for any event and any matching stored record (terminal
or not), the recorded status afterwards is the event's status. -/
theorem C1_amended (m : TaskProgressMessage) (t : Task) (ts : List Task)
    (scs : List Scene) (h : t.id = m.task_id) :
    (handleMessage m { tasks := t :: ts, scenes := scs }).tasks.map Task.status
      = m.status :: ts.map Task.status := by
  simp [handleMessage, updateTask, h, mergeTask, msgTaskPatch]

/-- Witness for the amended C1 at the concrete completed task and running
event. -/
theorem C1_amended_witness :
    (handleMessage runningMsgT1 { tasks := [taskT1], scenes := [] }).tasks.map Task.status
      = runningMsgT1.status :: ([] : List Task).map Task.status :=
  C1_amended runningMsgT1 taskT1 [] [] rfl

/-! ## C5: store upsert contract -/

/-- Counterexample to claim C5: `updateScene` with an id not in the store
creates nothing — the claim's "when no record exists one is created" fails
(the result should have been a one-element list). -/
theorem C5_counterexample :
    updateScene (some "missing") sampleScenePatch [] = [] := rfl

/-- Amended C5: `updateTask` is a pure upsert (append-if-absent,
spread-merge on the first id match); `updateScene` spread-merges on the
first id match and is a no-op when the id is absent (it never creates a
record); both are total, so an unknown id never fails or blocks the
primary task-state update. -/
theorem C5_amended (taskId sceneId : Option String) (tp : TaskPatch) (sp : ScenePatch) :
    (∀ ts : List Task, (∀ u ∈ ts, u.id ≠ taskId) →
        updateTask taskId tp ts = ts ++ [taskOfPatch tp]) ∧
    (∀ (pre post : List Task) (t : Task), (∀ u ∈ pre, u.id ≠ taskId) → t.id = taskId →
        updateTask taskId tp (pre ++ t :: post) = pre ++ mergeTask t tp :: post) ∧
    (∀ scs : List Scene, (∀ u ∈ scs, u.id ≠ sceneId) → updateScene sceneId sp scs = scs) ∧
    (∀ (pre post : List Scene) (sc : Scene), (∀ u ∈ pre, u.id ≠ sceneId) → sc.id = sceneId →
        updateScene sceneId sp (pre ++ sc :: post) = pre ++ mergeScene sc sp :: post) := by
  refine ⟨?_, ?_, ?_, ?_⟩
  · intro ts hts
    induction ts with
    | nil => rfl
    | cons t ts ih =>
      have ht : t.id ≠ taskId := hts t (List.mem_cons_self t ts)
      simp only [updateTask, if_neg ht, List.cons_append]
      exact congrArg _ (ih fun u hu => hts u (List.mem_cons_of_mem t hu))
  · intro pre post t hpre ht
    induction pre with
    | nil => simp [updateTask, ht]
    | cons u pre ih =>
      have hu : u.id ≠ taskId := hpre u (List.mem_cons_self u pre)
      simp only [List.cons_append, updateTask, if_neg hu]
      exact congrArg _ (ih fun v hv => hpre v (List.mem_cons_of_mem u hv))
  · intro scs hscs
    induction scs with
    | nil => rfl
    | cons sc scs ih =>
      have hsc : sc.id ≠ sceneId := hscs sc (List.mem_cons_self sc scs)
      simp only [updateScene, if_neg hsc]
      exact congrArg _ (ih fun u hu => hscs u (List.mem_cons_of_mem sc hu))
  · intro pre post sc hpre hsc
    induction pre with
    | nil => simp [updateScene, hsc]
    | cons u pre ih =>
      have hu : u.id ≠ sceneId := hpre u (List.mem_cons_self u pre)
      simp only [List.cons_append, updateScene, if_neg hu]
      exact congrArg _ (ih fun v hv => hpre v (List.mem_cons_of_mem u hv))

/-- Witness for the amended C5 at concrete records and patches. -/
theorem C5_amended_witness :
    updateTask (some "a") sampleTaskPatch [] = [] ++ [taskOfPatch sampleTaskPatch] ∧
    updateTask (some "a") sampleTaskPatch ([] ++ sampleTaskA :: []) =
      [] ++ mergeTask sampleTaskA sampleTaskPatch :: [] ∧
    updateScene (some "z") sampleScenePatch [] = [] ∧
    updateScene (some "z") sampleScenePatch ([] ++ sampleSceneZ :: []) =
      [] ++ mergeScene sampleSceneZ sampleScenePatch :: [] := by
  have h := C5_amended (some "a") (some "z") sampleTaskPatch sampleScenePatch
  exact ⟨h.1 [] (by intro u hu; exact absurd hu (List.not_mem_nil u)),
    h.2.1 [] [] sampleTaskA (by intro u hu; exact absurd hu (List.not_mem_nil u)) rfl,
    h.2.2.1 [] (by intro u hu; exact absurd hu (List.not_mem_nil u)),
    h.2.2.2 [] [] sampleSceneZ (by intro u hu; exact absurd hu (List.not_mem_nil u)) rfl⟩

/-! ## C8: dispatch idempotence -/

/-- Claim C8: dispatching the same well-formed progress event twice in a
row leaves exactly the same external task/scene state as dispatching it
once. -/
theorem C8_dispatch_idempotent (m : TaskProgressMessage) (s : ProjectStoreState) :
    dispatch (RawMessage.wellFormed m) (dispatch (RawMessage.wellFormed m) s) =
      dispatch (RawMessage.wellFormed m) s := by
  by_cases hp : m.type = some "pong"
  · simp [dispatch, hp]
  · simp only [dispatch, if_neg hp]
    show handleMessage m (handleMessage m s) = handleMessage m s
    simp [handleMessage, updateTask_idem m.task_id (msgTaskPatch m) rfl,
      applySceneUpdates_idem]

/-! ## C10: no structural validation in the dispatcher -/

/-- Claim C10 (implicit): any parsed message whose `type` is not `pong`
is applied to the task store as a task update keyed by its `task_id` —
even with `task_id`, `status` and `progress` all absent — and on an empty
store it inserts a (possibly field-less) record rather than being
discarded. -/
theorem C10_no_structural_validation (m : TaskProgressMessage) (s : ProjectStoreState)
    (h : m.type ≠ some "pong") :
    dispatch (RawMessage.wellFormed m) s = handleMessage m s ∧
    (dispatch (RawMessage.wellFormed m) s).tasks
      = updateTask m.task_id (msgTaskPatch m) s.tasks ∧
    (dispatch (RawMessage.wellFormed m) { tasks := [], scenes := [] }).tasks
      = [taskOfPatch (msgTaskPatch m)] := by
  have hd : ∀ s2 : ProjectStoreState,
      dispatch (RawMessage.wellFormed m) s2 = handleMessage m s2 := by
    intro s2; simp [dispatch, h]
  refine ⟨hd s, ?_, ?_⟩
  · rw [hd s]; rfl
  · rw [hd _]; rfl

/-- Witness for C10 at a message with every field absent. -/
theorem C10_witness :
    dispatch (RawMessage.wellFormed emptyWireMessage) { tasks := [taskT1], scenes := [] }
        = handleMessage emptyWireMessage { tasks := [taskT1], scenes := [] } ∧
    (dispatch (RawMessage.wellFormed emptyWireMessage)
        { tasks := [taskT1], scenes := [] }).tasks
      = updateTask emptyWireMessage.task_id (msgTaskPatch emptyWireMessage) [taskT1] ∧
    (dispatch (RawMessage.wellFormed emptyWireMessage) { tasks := [], scenes := [] }).tasks
      = [taskOfPatch (msgTaskPatch emptyWireMessage)] :=
  C10_no_structural_validation emptyWireMessage { tasks := [taskT1], scenes := [] }
    (by decide)

/-! ## State-machine invariant lemmas -/

theorem internal_no_reopen (e : WsEvent) (s : WsClientState)
    (he : isInternalEvent e = true)
    (h1 : s.reconnectTimer = false) (h2 : MAX_RECONNECT_ATTEMPTS ≤ s.reconnectAttempts) :
    (step e s).2 = false ∧ (step e s).1.reconnectTimer = false ∧
      MAX_RECONNECT_ATTEMPTS ≤ (step e s).1.reconnectAttempts := by
  cases e with
  | socketClosed wasClean =>
    have hlt : ¬ (s.reconnectAttempts < MAX_RECONNECT_ATTEMPTS) := Nat.not_lt.mpr h2
    simp [step, closedStep, hlt, h1, h2]
  | socketError => simp [step, errorStep, h1, h2]
  | reconnectTimerFire token => simp [step, reconnectFireStep, h1, h2]
  | connectCall token => simp [isInternalEvent] at he
  | socketOpened => simp [isInternalEvent] at he
  | disconnectCall => simp [isInternalEvent] at he
  | visibilityVisible token => simp [isInternalEvent] at he

theorem internal_list_no_reopen (es : List WsEvent) :
    ∀ s : WsClientState, es.all isInternalEvent = true →
      s.reconnectTimer = false → MAX_RECONNECT_ATTEMPTS ≤ s.reconnectAttempts →
      (runEvents es s).2 = false := by
  induction es with
  | nil => intro s _ _ _; rfl
  | cons e es ih =>
    intro s he h1 h2
    simp only [List.all_cons, Bool.and_eq_true] at he
    have h := internal_no_reopen e s he.1 h1 h2
    simp only [runEvents]
    rw [h.1, Bool.false_or]
    exact ih (step e s).1 he.2 h.2.1 h.2.2

theorem post_disconnect_no_reopen (e : WsEvent) (s : WsClientState)
    (he : isPostDisconnectEvent e = true)
    (h1 : s.reconnectTimer = false) (h2 : s.heartbeatTimer = false) :
    (step e s).2 = false ∧ (step e s).1.reconnectTimer = false ∧
      (step e s).1.heartbeatTimer = false := by
  cases e with
  | socketClosed wasClean =>
    have hb : wasClean = true := by simpa [isPostDisconnectEvent] using he
    by_cases hm : MAX_RECONNECT_ATTEMPTS ≤ s.reconnectAttempts
    · simp [step, closedStep, hb, hm, h1]
    · simp [step, closedStep, hb, hm, h1]
  | socketError => simp [step, errorStep, h1, h2]
  | reconnectTimerFire token => simp [step, reconnectFireStep, h1, h2]
  | connectCall token => simp [isPostDisconnectEvent] at he
  | socketOpened => simp [isPostDisconnectEvent] at he
  | disconnectCall => simp [isPostDisconnectEvent] at he
  | visibilityVisible token => simp [isPostDisconnectEvent] at he

theorem post_disconnect_list_no_reopen (es : List WsEvent) :
    ∀ s : WsClientState, es.all isPostDisconnectEvent = true →
      s.reconnectTimer = false → s.heartbeatTimer = false →
      (runEvents es s).2 = false ∧ (runEvents es s).1.reconnectTimer = false ∧
        (runEvents es s).1.heartbeatTimer = false := by
  induction es with
  | nil => intro s _ h1 h2; exact ⟨rfl, h1, h2⟩
  | cons e es ih =>
    intro s he h1 h2
    simp only [List.all_cons, Bool.and_eq_true] at he
    have h := post_disconnect_no_reopen e s he.1 h1 h2
    have ht := ih (step e s).1 he.2 h.2.1 h.2.2
    simp only [runEvents]
    exact ⟨by rw [h.1, Bool.false_or]; exact ht.1, ht.2.1, ht.2.2⟩

theorem connectStep_attempts (token : Option String) (s : WsClientState) :
    (connectStep token s).1.reconnectAttempts = s.reconnectAttempts := by
  unfold connectStep
  split_ifs <;> rfl

theorem connectStep_opens (token : Option String) (s : WsClientState)
    (ht : jsTruthy token = true) (hs : s.socket ≠ some SocketReadyState.OPEN)
    (hc : s.connecting = false) :
    (connectStep token s).2 = true := by
  simp [connectStep, ht, hs, hc]

/-! ## C2: reconnect ceiling -/

/-- Counterexample to claim C2: starting from the initial state, after
exactly `MAX_RECONNECT_ATTEMPTS = 5` consecutive abnormal closes with no
intervening open, the controller is NOT in a terminal failed state: no
error is recorded, a fifth reconnect timer is still pending, and that
timer firing invokes a further socket open. -/
theorem C2_counterexample :
    (runEvents abnormalTrace5 initialState).1.reconnectTimer = true ∧
    (runEvents abnormalTrace5 initialState).1.error = none ∧
    (runEvents [WsEvent.reconnectTimerFire (some "tok")]
        (runEvents abnormalTrace5 initialState).1).2 = true := by
  exact ⟨by decide, by decide, by decide⟩

/-- Amended C2: the terminal state is reached after `maxAttempts + 1 = 6`
consecutive abnormal closes — the initial attempt plus all five scheduled
retries failing.  Then the fatal error is set, no reconnect timer is
pending, and no sequence of socket/timer events (closes, transport
errors, stale timer callbacks) ever attempts another socket open; only
the external entry points (`connect()`, visibility regain) can. -/
theorem C2_amended_reconnect_ceiling (es : List WsEvent)
    (he : es.all isInternalEvent = true) :
    (runEvents abnormalTrace6 initialState).1.error = some "连接失败，请刷新页面重试" ∧
    (runEvents abnormalTrace6 initialState).1.reconnectTimer = false ∧
    (runEvents es (runEvents abnormalTrace6 initialState).1).2 = false := by
  refine ⟨by decide, by decide, ?_⟩
  exact internal_list_no_reopen es (runEvents abnormalTrace6 initialState).1 he
    (by decide) (by decide)

/-- Witness for the amended C2: two further internal events (another
abnormal close, a stale timer callback) attempt no open. -/
theorem C2_amended_witness :
    (runEvents abnormalTrace6 initialState).1.error = some "连接失败，请刷新页面重试" ∧
    (runEvents abnormalTrace6 initialState).1.reconnectTimer = false ∧
    (runEvents [WsEvent.socketClosed false, WsEvent.reconnectTimerFire (some "tok")]
        (runEvents abnormalTrace6 initialState).1).2 = false :=
  C2_amended_reconnect_ceiling
    [WsEvent.socketClosed false, WsEvent.reconnectTimerFire (some "tok")] (by decide)

/-! ## C4: disconnect cancellation and clean-close non-reconnect -/

/-- Claim C4: `disconnect()` cancels the reconnect timer and the
heartbeat timer and closes/discards the socket, opening nothing itself;
and after it, any sequence of clean-closure reports, transport errors and
stale timer callbacks attempts zero socket opens and leaves zero pending
reconnect or heartbeat timers. -/
theorem C4_disconnect_cancellation (s : WsClientState) (es : List WsEvent)
    (he : es.all isPostDisconnectEvent = true) :
    (step WsEvent.disconnectCall s).1.reconnectTimer = false ∧
    (step WsEvent.disconnectCall s).1.heartbeatTimer = false ∧
    (step WsEvent.disconnectCall s).1.socket = none ∧
    (step WsEvent.disconnectCall s).2 = false ∧
    (runEvents es (step WsEvent.disconnectCall s).1).2 = false ∧
    (runEvents es (step WsEvent.disconnectCall s).1).1.reconnectTimer = false ∧
    (runEvents es (step WsEvent.disconnectCall s).1).1.heartbeatTimer = false := by
  have h := post_disconnect_list_no_reopen es (step WsEvent.disconnectCall s).1 he rfl rfl
  exact ⟨rfl, rfl, rfl, rfl, h.1, h.2.1, h.2.2⟩

/-- Witness for C4: disconnecting a state with a pending reconnect timer
and then receiving the clean closure report plus a stale timer callback
yields no opens and no pending timers. -/
theorem C4_witness :
    (step WsEvent.disconnectCall stateAttempts3).1.reconnectTimer = false ∧
    (step WsEvent.disconnectCall stateAttempts3).1.heartbeatTimer = false ∧
    (step WsEvent.disconnectCall stateAttempts3).1.socket = none ∧
    (step WsEvent.disconnectCall stateAttempts3).2 = false ∧
    (runEvents [WsEvent.socketClosed true, WsEvent.reconnectTimerFire (some "tok")]
        (step WsEvent.disconnectCall stateAttempts3).1).2 = false ∧
    (runEvents [WsEvent.socketClosed true, WsEvent.reconnectTimerFire (some "tok")]
        (step WsEvent.disconnectCall stateAttempts3).1).1.reconnectTimer = false ∧
    (runEvents [WsEvent.socketClosed true, WsEvent.reconnectTimerFire (some "tok")]
        (step WsEvent.disconnectCall stateAttempts3).1).1.heartbeatTimer = false :=
  C4_disconnect_cancellation stateAttempts3
    [WsEvent.socketClosed true, WsEvent.reconnectTimerFire (some "tok")] (by decide)

/-! ## C7: attempts reset -/

/-- Counterexample to claim C7: the attempt counter is not reset
exclusively by a successful open or a visibility regain — `disconnect()`
also resets it to 0 (from 3 in the witness state). -/
theorem C7_counterexample :
    ¬ (∀ (e : WsEvent) (s : WsClientState),
        (step e s).1.reconnectAttempts = 0 → s.reconnectAttempts ≠ 0 →
        (e = WsEvent.socketOpened ∨ ∃ t, e = WsEvent.visibilityVisible t)) := by
  intro h
  rcases h WsEvent.disconnectCall stateAttempts3 rfl (by decide) with h1 | ⟨t, h2⟩
  · exact WsEvent.noConfusion h1
  · exact WsEvent.noConfusion h2

/-- Amended C7: the counter is reset to 0 on (a) a successful open after
any number of prior attempts, (b) a hidden-to-visible transition while
neither connected nor connecting — which also invokes `connect()`
immediately, attempting a socket open whenever a token is available and
the socket is not already open — and additionally (c) `disconnect()`. -/
theorem C7_amended (s : WsClientState) (t : Option String) :
    (step WsEvent.socketOpened s).1.reconnectAttempts = 0 ∧
    (step WsEvent.disconnectCall s).1.reconnectAttempts = 0 ∧
    (s.connected = false → s.connecting = false →
      (step (WsEvent.visibilityVisible t) s).1.reconnectAttempts = 0 ∧
      (jsTruthy t = true → s.socket ≠ some SocketReadyState.OPEN →
        (step (WsEvent.visibilityVisible t) s).2 = true)) := by
  refine ⟨rfl, rfl, fun hcon hcing => ⟨?_, fun htk hsk => ?_⟩⟩
  · show (visibilityStep t s).1.reconnectAttempts = 0
    unfold visibilityStep
    have hguard : (!s.connected && !s.connecting) = true := by rw [hcon, hcing]; rfl
    rw [hguard, if_pos rfl]
    exact connectStep_attempts t _
  · show (visibilityStep t s).2 = true
    unfold visibilityStep
    have hguard : (!s.connected && !s.connecting) = true := by rw [hcon, hcing]; rfl
    rw [hguard, if_pos rfl]
    exact connectStep_opens t _ htk hsk hcing

/-- Witness for the amended C7 at the mid-backoff state with three
consumed attempts. -/
theorem C7_amended_witness :
    (step WsEvent.socketOpened stateAttempts3).1.reconnectAttempts = 0 ∧
    (step WsEvent.disconnectCall stateAttempts3).1.reconnectAttempts = 0 ∧
    (step (WsEvent.visibilityVisible (some "tok")) stateAttempts3).1.reconnectAttempts = 0 ∧
    (step (WsEvent.visibilityVisible (some "tok")) stateAttempts3).2 = true := by
  have h := C7_amended stateAttempts3 (some "tok")
  have h3 := h.2.2 rfl rfl
  exact ⟨h.1, h.2.1, h3.1, h3.2 rfl (by decide)⟩

end StoryFlow
